import Mathlib

namespace SistemaAlianzas

/-! Shallow embedding of the session and data-synchronization core of the
Sistema_Alianzas client: the request gateway and refresh coordinator of
src/utils/api, the configuration bootstrap of the ConfigProvider, and the
system context (audit-log mirror and bounded error buffer). Every
definition is translated from the TypeScript source; network behaviour is
supplied as explicit world values. -/

/-- HTTP headers, modelled through the finite-map interface of the JS
Headers object: lookup returns the stored value, set overwrites. -/
def Headers : Type := String → Option String

/-- Headers.set: overwrite the entry stored under key k. -/
def hset (h : Headers) (k v : String) : Headers :=
  fun k' => if k' = k then some v else h k'

/-- Headers.has. -/
def hhas (h : Headers) (k : String) : Bool := (h k).isSome

/-- A header map with no entries. -/
def hempty : Headers := fun _ => none

/-- The credential store: the localStorage slots accessToken and
refreshToken, each either present with a string value or absent. -/
structure Store where
  accessToken : Option String
  refreshToken : Option String
deriving DecidableEq

/-- Outcome of the POST auth refresh-token exchange as seen by the client:
an ok JSON body carrying accessToken and an optional refreshToken, a
non-ok HTTP response, or a transport-level failure (fetch rejection). -/
inductive RefreshResponse where
  | ok (accessToken : String) (newRefreshToken : Option String)
  | httpError
  | transportError
deriving DecidableEq

/-- Embeds refreshToken (src/utils/api lines 6-38): when no refresh
credential is stored it returns null at once; otherwise the exchange
either succeeds (the new access token is stored, and the new refresh token
when the server sent one, the old one being kept otherwise) or fails with
a non-ok response or a transport error, both reaching the catch block that
removes both credentials and returns null. -/
def refreshTokenFn (s : Store) (resp : RefreshResponse) : Store × Option String :=
  match s.refreshToken with
  | none => (s, none)
  | some rt =>
    match resp with
    | .ok access newRefresh => (⟨some access, some (newRefresh.getD rt)⟩, some access)
    | .httpError => (⟨none, none⟩, none)
    | .transportError => (⟨none, none⟩, none)

/-- Whether the first character list starts the second one. -/
def leadsChars : List Char → List Char → Bool
  | [], _ => true
  | _ :: _, [] => false
  | a :: as, b :: bs => a == b && leadsChars as bs

/-- Whether the pattern occurs somewhere in the character list. -/
def occursChars (pat : List Char) : List Char → Bool
  | [] => leadsChars pat []
  | b :: bs => leadsChars pat (b :: bs) || occursChars pat bs

/-- Substring occurrence test, the String.includes used by the message
classification checks. -/
def containsSub (s pat : String) : Bool := occursChars pat.data s.data

/-- The gateway catch-all (lines 125-137): messages that look like
transport failures are replaced by the uniform cannot-reach-server
message; every other message is rethrown unchanged. -/
def netNormalize (msg : String) : String :=
  if msg == "Failed to fetch" || containsSub msg "NetworkError" || containsSub msg "Connection refused" then
    "No se pudo conectar al servidor. Verifique la URL del backend y su conexión a internet."
  else msg

/-- Classification of a non-2xx response body after the JSON parse attempt
of lines 93-102: a JSON object (its message field recorded when present
and truthy), a JSON string, any other JSON value (including an object with
no truthy message, recorded as jsonObj none), or a parse failure. -/
inductive ErrorBody where
  | jsonObj (message : Option String)
  | jsonStr (s : String)
  | jsonOther
  | notJson
deriving DecidableEq

/-- An HTTP response as the gateway observes it: status code, the
error-body classification used on the non-ok path, whether the content
type includes application/json, and the decoded payload for the ok path. -/
structure HttpResp (α : Type) where
  status : Nat
  errorBody : ErrorBody
  ctJson : Bool
  payload : α

/-- Outcome of one fetch: a response, or a rejected fetch with a message. -/
inductive FetchOutcome (α : Type) where
  | resp (r : HttpResp α)
  | netFail (msg : String)

/-- The network environment of one apiFetch call: the outcome of the
initial request, of the refresh exchange should one be started, and of the
replay should one be issued. -/
structure ApiWorld (α : Type) where
  first : FetchOutcome α
  refresh : RefreshResponse
  retry : FetchOutcome α

/-- One outbound request issued by the gateway. -/
structure Request where
  endpoint : String
  headers : Headers

/-- The observable effect of one apiFetch call: the final credential
store, the value or error delivered to the caller, and the requests the
gateway issued, in order. -/
structure ApiResult (α : Type) where
  store : Store
  result : Except String (Option α)
  requests : List Request

/-- Response.ok: status in the inclusive range 200 to 299. -/
def respOk (status : Nat) : Bool := 200 ≤ status && status ≤ 299

/-- Error-message selection on a non-ok response (lines 91-102): a truthy
message field of a JSON object body wins; a body that parses to a JSON
string is adopted as is; every other case keeps the raw status line. -/
def errorMessageFor (status : Nat) (body : ErrorBody) : String :=
  match body with
  | .jsonObj (some m) => m
  | .jsonStr s => s
  | _ => "HTTP error! status: " ++ toString status

/-- Map a function over the error of an Except value. -/
def mapErr (f : String → String) : Except String β → Except String β
  | .ok v => .ok v
  | .error e => .error (f e)

/-- Lines 91-124 applied to a response that has passed the 401 handling:
non-ok throws the selected message, 204 returns an empty payload, a JSON
content type returns the parsed body, anything else an empty payload. -/
def handleResponse (r : HttpResp α) : Except String (Option α) :=
  if respOk r.status = false then .error (errorMessageFor r.status r.errorBody)
  else if r.status == 204 then .ok none
  else if r.ctJson then .ok (some r.payload)
  else .ok none

/-- Completion of a fetch outcome inside the try block: a rejected fetch
reaches the catch with its message; a response goes through
handleResponse; every thrown message passes through netNormalize before
being rethrown to the caller. -/
def finishResponse (o : FetchOutcome α) : Except String (Option α) :=
  match o with
  | .netFail m => .error (netNormalize m)
  | .resp r => mapErr netNormalize (handleResponse r)

/-- Header construction of apiFetch lines 44-56: copy the caller headers,
default Content-Type to application/json, attach the bearer token when one
is stored, then unconditionally set the tunnel-warning skip header. -/
def buildHeaders (optHeaders : Headers) (token : Option String) : Headers :=
  let h1 := if hhas optHeaders "Content-Type" then optHeaders
            else hset optHeaders "Content-Type" "application/json"
  let h2 := match token with
    | some t => hset h1 "Authorization" ("Bearer " ++ t)
    | none => h1
  hset h2 "ngrok-skip-browser-warning" "true"

/-- One apiFetch call (lines 43-139) run to completion from an idle
refresh coordinator. On a 401 the refresh exchange is consulted; a fresh
token yields exactly one replay with the Authorization header overwritten,
a null token yields the terminal session-expired error with no replay. -/
def apiFetchSeq (endpoint : String) (optHeaders : Headers) (s : Store) (w : ApiWorld α) : ApiResult α :=
  let h := buildHeaders optHeaders s.accessToken
  let req1 : Request := ⟨endpoint, h⟩
  match w.first with
  | .netFail m => ⟨s, .error (netNormalize m), [req1]⟩
  | .resp r =>
    if r.status == 401 then
      match (refreshTokenFn s w.refresh).2 with
      | some t =>
        let req2 : Request := ⟨endpoint, hset h "Authorization" ("Bearer " ++ t)⟩
        ⟨(refreshTokenFn s w.refresh).1, finishResponse w.retry, [req1, req2]⟩
      | none =>
        ⟨(refreshTokenFn s w.refresh).1,
         .error (netNormalize "Session expired. Please log in again."), [req1]⟩
    else
      ⟨s, finishResponse (.resp r), [req1]⟩

/-- Credential-store states the client itself can produce: initial empty
storage, handleLogin on full success, handleLogout (its finally clause
always clears both slots), and any refresh exchange. -/
inductive Reachable : Store → Prop where
  | init : Reachable ⟨none, none⟩
  | login (s : Store) (a r : String) : Reachable s → Reachable ⟨some a, some r⟩
  | logout (s : Store) : Reachable s → Reachable ⟨none, none⟩
  | refresh (s : Store) (resp : RefreshResponse) : Reachable s → Reachable (refreshTokenFn s resp).1

/-- The failure cases of the refresh exchange named by claim C3: the
exchange rejected, no refresh credential stored, or a transport failure. -/
def refreshFailure (s : Store) (resp : RefreshResponse) : Prop :=
  s.refreshToken = none ∨ resp = .httpError ∨ resp = .transportError

/-! ### Refresh coordinator under concurrency

The module-level state of src/utils/api lines 40-41 (isRefreshing and the
shared refreshPromise) together with N gateway calls whose initial fetches
all came back 401. The JS event loop is single threaded: the 401-handling
block of lines 70-76 runs without suspension, so checking isRefreshing,
starting the exchange and registering on the shared promise is one atomic
step. When the shared promise settles, every continuation awaiting it is
already in the microtask queue and runs before any other network event, so
settlement atomically delivers the outcome to all registered waiters; each
resuming waiter also executes lines 77-78, clearing the flag and the
handle, which the settle step performs once. -/

/-- The phase of one gateway call that observed a 401: its 401 not yet
processed, awaiting the shared refresh promise, or resumed with the value
the promise delivered (the new access token, or null). -/
inductive Phase where
  | pending
  | waiting
  | done (r : Option String)
deriving DecidableEq

/-- Coordinator system: the phase of each of the n calls, the isRefreshing
flag (which, between suspension points, is set exactly when the shared
refreshPromise handle is), and how many refresh-exchange requests have
been issued. -/
structure Sys (n : Nat) where
  tasks : Fin n → Phase
  refreshing : Bool
  exchanges : Nat

/-- All calls have an unprocessed 401 and the coordinator is idle. -/
def initSys (n : Nat) : Sys n := ⟨fun _ => .pending, false, 0⟩

/-- Scheduler events: call i runs its 401 block, or the outstanding
refresh promise settles with result r. -/
inductive Ev (n : Nat) where
  | observe (i : Fin n)
  | settle (r : Option String)

/-- One event-loop step. Observe runs lines 70-76 for call i: if no
refresh is in flight it starts one (issuing the exchange request) and
awaits it, otherwise it awaits the one in flight. Settle resolves the
outstanding promise: every waiter receives r and lines 77-78 clear the
coordinator state. Events that are not enabled leave the state unchanged. -/
def step {n : Nat} (s : Sys n) : Ev n → Sys n
  | .observe i =>
    match s.tasks i with
    | .pending =>
      if s.refreshing then
        { s with tasks := Function.update s.tasks i .waiting }
      else
        ⟨Function.update s.tasks i .waiting, true, s.exchanges + 1⟩
    | _ => s
  | .settle r =>
    if s.refreshing then
      ⟨fun i => match s.tasks i with | .waiting => .done r | p => p, false, s.exchanges⟩
    else s

/-- Run a list of events in order. -/
def runEvents {n : Nat} (s : Sys n) (es : List (Ev n)) : Sys n := es.foldl step s

/-- What a resumed gateway call does with the delivered value (lines
80-88): replay once with the overwritten bearer header, or throw the
terminal session-expired error. -/
def resumeOutcome : Option String → Except String String
  | some t => .ok ("Bearer " ++ t)
  | none => .error "Session expired. Please log in again."

/-! ### Configuration bootstrap (ConfigProvider) -/

/-- A permission set: capability key mapped to a flag. Only identity of
whole sets matters to the resolution logic. -/
def Permissions : Type := List (String × Bool)

/-- The signed-in principal, with the fields the core reads. -/
structure User where
  id : String
  name : String
  roleId : String
deriving DecidableEq

/-- A role record fetched from the server. -/
structure Role where
  id : String
  permissions : Permissions

structure Category where
  id : String
deriving DecidableEq

structure Office where
  id : String
deriving DecidableEq

structure ShippingType where
  id : String
deriving DecidableEq

structure PaymentMethod where
  id : String
deriving DecidableEq

structure ExpenseCategory where
  id : String
deriving DecidableEq

structure CuentaContable where
  id : String
deriving DecidableEq

/-- The outcome of one apiFetch call as its caller observes it: the
decoded value, or the thrown error message. -/
inductive CallOutcome (α : Type) where
  | ok (v : α)
  | err (msg : String)

/-- The silenced-message patterns of fetchSafe (ConfigProvider lines
77-86): permission and not-found errors are degraded without noise. -/
def isSilenced (m : String) : Bool :=
  containsSub m "403" || containsSub m "401" || containsSub m "404" ||
    containsSub m "No tiene los permisos"

/-- fetchSafe (ConfigProvider lines 73-91): every error is converted to
the caller-supplied fallback; the Bool records whether the non-silenced
console warning was printed. -/
def fetchSafe (outcome : CallOutcome α) (fallback : α) : α × Bool :=
  match outcome with
  | .ok v => (v, false)
  | .err m => (fallback, !isSilenced m)

/-- The network environment of one bootstrap run: the outcome of each of
the eight collection endpoints. -/
structure ConfigWorld where
  categories : CallOutcome (List Category)
  offices : CallOutcome (List Office)
  shippingTypes : CallOutcome (List ShippingType)
  paymentMethods : CallOutcome (List PaymentMethod)
  users : CallOutcome (List User)
  roles : CallOutcome (List Role)
  expenseCategories : CallOutcome (List ExpenseCategory)
  cuentas : CallOutcome (List CuentaContable)

/-- The collection state the bootstrap leaves behind, together with the
partial-load toast message when the ungated group failed. -/
structure ConfigState where
  categories : List Category
  offices : List Office
  shippingTypes : List ShippingType
  paymentMethods : List PaymentMethod
  users : List User
  roles : List Role
  expenseCategories : List ExpenseCategory
  cuentasContables : List CuentaContable
  partialLoadError : Option String

/-- The access-tier predicate of lines 99-101. -/
def hasFullAccessFor (u : User) : Bool :=
  u.roleId == "role-admin" || u.roleId == "role-tech"

/-- The four endpoints of the ungated group, requested unconditionally. -/
def ungatedEndpoints : List String :=
  ["/categories", "/offices", "/shipping-types", "/payment-methods"]

/-- The four endpoints of the access-gated group. -/
def gatedEndpoints : List String :=
  ["/users", "/roles", "/expense-categories", "/cuentas-contables"]

/-- Promise.all over the ungated group: all four values, or the error of a
failing member (the first in field order, a deterministic stand-in for the
first rejection in time; the claims never depend on which message wins). -/
def group1Result (w : ConfigWorld) :
    Except String (List Category × List Office × List ShippingType × List PaymentMethod) :=
  match w.categories, w.offices, w.shippingTypes, w.paymentMethods with
  | .ok a, .ok b, .ok c, .ok d => .ok (a, b, c, d)
  | .err m, _, _, _ => .error m
  | _, .err m, _, _ => .error m
  | _, _, .err m, _ => .error m
  | _, _, _, .err m => .error m

/-- The state every collection starts from before the bootstrap writes. -/
def initialConfigState : ConfigState :=
  ⟨[], [], [], [], [], [], [], [], none⟩

/-- fetchConfigData for an authenticated identity (ConfigProvider lines
94-159), with the built-in default chart of accounts
PLAN_DE_CUENTAS_INICIAL passed in as planInicial (its contents live in a
data module outside the core). Returns the resulting collection state and
the endpoints requested, in order. The ungated group is always requested;
its failure jumps to the catch clause, so the gated group is reached only
when it succeeds, and only for an identity with full access. -/
def fetchConfigData (planInicial : List CuentaContable) (u : User) (w : ConfigWorld) :
    ConfigState × List String :=
  match group1Result w with
  | .error m =>
    ({ initialConfigState with partialLoadError := some m }, ungatedEndpoints)
  | .ok (cs, os, sts, pms) =>
    if hasFullAccessFor u then
      let usersData := (fetchSafe w.users []).1
      let rolesData := (fetchSafe w.roles []).1
      let expenseData := (fetchSafe w.expenseCategories []).1
      let cuentasData := (fetchSafe w.cuentas []).1
      let cuentasFinal := if cuentasData.length > 0 then cuentasData else planInicial
      (⟨cs, os, sts, pms, usersData, rolesData, expenseData, cuentasFinal, none⟩,
       ungatedEndpoints ++ gatedEndpoints)
    else
      (⟨cs, os, sts, pms, [], [], [], [], none⟩, ungatedEndpoints)

/-- Permission resolution (ConfigProvider lines 183-205), with the
hardcoded DEFAULT_ROLE_PERMISSIONS table passed in as defaults (its
contents live in a constants module outside the core; the logic is
parametric in them). Returns the adopted permission set and whether the
unknown-role diagnostic was emitted. -/
def resolvePermissions (defaults : List (String × Permissions))
    (currentUser : Option User) (roles : List Role) : Permissions × Bool :=
  match currentUser with
  | none => ([], false)
  | some u =>
    match roles.find? (fun r => r.id == u.roleId) with
    | some fetchedRole => (fetchedRole.permissions, false)
    | none =>
      match (defaults.find? (fun p => p.1 == u.roleId)).map (fun p => p.2) with
      | some defaultPerms => (defaultPerms, false)
      | none => ([], true)

/-! ### System context: audit-log mirror and error buffer -/

/-- An audit entry as stored by the server (id assigned there). -/
structure AuditLog where
  id : String
  timestamp : String
  userId : String
  userName : String
  action : String
  details : String
  targetId : Option String
deriving DecidableEq

/-- The entry body logAction builds and submits (no id yet). -/
structure NewLogEntry where
  timestamp : String
  userId : String
  userName : String
  action : String
  details : String
  targetId : Option String
deriving DecidableEq

/-- logAction (SystemContext lines 54-79): with no identity nothing
happens; otherwise the entry is built and POSTed unconditionally. On a
successful POST the saved entry is prepended to the local mirror only when
the mirror already holds at least one entry; a failed POST changes
nothing locally. Returns the new mirror and the submitted body (none when
nothing was submitted). -/
def logAction (user : Option User) (now : String) (actionType details : String)
    (targetId : Option String) (auditLog : List AuditLog)
    (post : CallOutcome AuditLog) : List AuditLog × Option NewLogEntry :=
  match user with
  | none => (auditLog, none)
  | some u =>
    let entry : NewLogEntry := ⟨now, u.id, u.name, actionType, details, targetId⟩
    match post with
    | .ok savedLog =>
      (if auditLog.length > 0 then savedLog :: auditLog else auditLog, some entry)
    | .err _ => (auditLog, some entry)

/-- A recorded error event. -/
structure AppError where
  id : String
  message : String
  source : String
  lineno : Nat
  colno : Nat
  error : String
  timestamp : String
deriving DecidableEq

/-- handleError (SystemContext lines 82-93): prepend the new event to the
first 99 entries of the previous list (prev.slice(0, 99)). -/
def handleError (prev : List AppError) (e : AppError) : List AppError :=
  e :: prev.take 99

/-- Record a sequence of error events in order, starting from the empty
list the provider initializes. -/
def recordErrors (events : List AppError) : List AppError :=
  events.foldl handleError []

/-! ### Helper lemmas -/

lemma reachable_half_pair {s : Store} (h : Reachable s) :
    s.refreshToken = none → s.accessToken = none := by
  induction h with
  | init => intro _; rfl
  | login s a r _ _ => intro hr; exact absurd hr (by simp)
  | logout s _ _ => intro _; rfl
  | refresh s resp _ ih =>
    cases hrt : s.refreshToken with
    | none => simpa [refreshTokenFn, hrt] using ih
    | some rt =>
      cases resp with
      | ok a nr => intro hc; simp [refreshTokenFn, hrt] at hc
      | httpError => intro _; simp [refreshTokenFn, hrt]
      | transportError => intro _; simp [refreshTokenFn, hrt]

lemma hset_same (h : Headers) (k v : String) : hset h k v k = some v := by
  simp [hset]

lemma hset_other (h : Headers) (k k' v : String) (hne : k' ≠ k) :
    hset h k v k' = h k' := by
  simp [hset, hne]

lemma buildHeaders_ngrok (oh : Headers) (tok : Option String) :
    buildHeaders oh tok "ngrok-skip-browser-warning" = some "true" := by
  unfold buildHeaders
  exact hset_same _ _ _

lemma buildHeaders_auth_none (oh : Headers) (hoh : oh "Authorization" = none) :
    buildHeaders oh none "Authorization" = none := by
  unfold buildHeaders
  by_cases hc : hhas oh "Content-Type"
  · simp [hc, hset, hoh]
  · simp [hc, hset, hoh]

lemma runObs_inv {n : Nat} (l : List (Fin n)) (s : Sys n)
    (hr : s.refreshing = true) (he : s.exchanges = 1)
    (hw : ∀ i, s.tasks i = .pending ∨ s.tasks i = .waiting) :
    (runEvents s (l.map .observe)).refreshing = true ∧
    (runEvents s (l.map .observe)).exchanges = 1 ∧
    (∀ i, (runEvents s (l.map .observe)).tasks i = .pending ∨
      (runEvents s (l.map .observe)).tasks i = .waiting) ∧
    (∀ i, s.tasks i = .waiting → (runEvents s (l.map .observe)).tasks i = .waiting) ∧
    (∀ i, i ∈ l → (runEvents s (l.map .observe)).tasks i = .waiting) := by
  induction l generalizing s with
  | nil =>
    refine ⟨hr, he, hw, fun i h => h, ?_⟩
    intro i hi; exact absurd hi (List.not_mem_nil i)
  | cons a t ih =>
    have hstep : step s (.observe a) =
        { s with tasks := Function.update s.tasks a .waiting } := by
      rcases hw a with ha | ha
      · simp [step, ha, hr]
      · have hupd : Function.update s.tasks a Phase.waiting = s.tasks := by
          funext j
          by_cases hj : j = a
          · subst hj; simp [Function.update, ha]
          · simp [Function.update, hj]
        simp [step, ha, hupd]
    have hr1 : (step s (.observe a)).refreshing = true := by rw [hstep]; exact hr
    have he1 : (step s (.observe a)).exchanges = 1 := by rw [hstep]; exact he
    have hw1 : ∀ i, (step s (.observe a)).tasks i = .pending ∨
        (step s (.observe a)).tasks i = .waiting := by
      intro i; rw [hstep]
      by_cases hj : i = a
      · subst hj; simp [Function.update]
      · simp [Function.update, hj]; exact hw i
    have hmain := ih (step s (.observe a)) hr1 he1 hw1
    have hkeep : ∀ i, s.tasks i = .waiting → (step s (.observe a)).tasks i = .waiting := by
      intro i hi; rw [hstep]
      by_cases hj : i = a
      · subst hj; simp [Function.update]
      · simp [Function.update, hj]; exact hi
    have ha_wait : (step s (.observe a)).tasks a = .waiting := by
      rw [hstep]; simp [Function.update]
    refine ⟨?_, ?_, ?_, ?_, ?_⟩
    · simpa [runEvents, List.foldl_cons] using hmain.1
    · simpa [runEvents, List.foldl_cons] using hmain.2.1
    · intro i; simpa [runEvents, List.foldl_cons] using hmain.2.2.1 i
    · intro i hi
      have := hmain.2.2.2.1 i (hkeep i hi)
      simpa [runEvents, List.foldl_cons] using this
    · intro i hi
      rcases List.mem_cons.mp hi with hia | hit
      · subst hia
        have := hmain.2.2.2.1 i ha_wait
        simpa [runEvents, List.foldl_cons] using this
      · have := hmain.2.2.2.2 i hit
        simpa [runEvents, List.foldl_cons] using this

lemma recordErrors_snoc (es : List AppError) (e : AppError) :
    recordErrors (es ++ [e]) = e :: (recordErrors es).take 99 := by
  simp [recordErrors, List.foldl_append, handleError]

lemma recordErrors_eq (es : List AppError) :
    recordErrors es = es.reverse.take 100 := by
  induction es using List.reverseRecOn with
  | nil => rfl
  | append_singleton es e ih =>
    rw [recordErrors_snoc, ih, List.reverse_append]
    simp [List.take_succ_cons, List.take_take]

lemma apiFetchSeq_requests_shape (α : Type) (ep : String) (oh : Headers) (s : Store)
    (w : ApiWorld α) :
    (apiFetchSeq ep oh s w).requests = [⟨ep, buildHeaders oh s.accessToken⟩] ∨
    ∃ t, (apiFetchSeq ep oh s w).requests =
      [⟨ep, buildHeaders oh s.accessToken⟩,
       ⟨ep, hset (buildHeaders oh s.accessToken) "Authorization" ("Bearer " ++ t)⟩] := by
  unfold apiFetchSeq
  cases w.first with
  | netFail m => exact Or.inl rfl
  | resp r =>
    by_cases h4 : r.status == 401
    · cases ht : (refreshTokenFn s w.refresh).2 with
      | some t =>
        simp only [h4, if_true, ht]
        exact Or.inr ⟨t, rfl⟩
      | none => simp [h4, ht]
    · simp [h4]

lemma apiFetchSeq_requests_no_retry (α : Type) (ep : String) (oh : Headers) (s : Store)
    (hR : s.refreshToken = none) (w : ApiWorld α) :
    (apiFetchSeq ep oh s w).requests = [⟨ep, buildHeaders oh s.accessToken⟩] := by
  unfold apiFetchSeq
  cases w.first with
  | netFail m => rfl
  | resp r =>
    by_cases h4 : r.status == 401
    · simp [h4, refreshTokenFn, hR]
    · simp [h4]

/-- Claim C9: the recorded error-event list is bounded: after any
sequence of recorded error events the list holds at most the 100 most
recent entries in newest-first order, the oldest evicted first. -/
theorem error_buffer_bounded (events : List AppError) :
    recordErrors events = events.reverse.take 100 ∧
    (recordErrors events).length ≤ 100 := by
  refine ⟨recordErrors_eq events, ?_⟩
  rw [recordErrors_eq]
  exact List.length_take_le _ _

/-- Claim C10: every request built by the gateway carries the header
ngrok-skip-browser-warning with value true. It is set unconditionally
after the caller headers are copied, so it holds for every caller header
map (overwriting any caller-supplied value), for every endpoint, every
credential state and every network outcome, on the initial request and on
the replay alike. -/
theorem ngrok_header_always (α : Type) (ep : String) (oh : Headers) (s : Store)
    (w : ApiWorld α) :
    buildHeaders oh s.accessToken "ngrok-skip-browser-warning" = some "true" ∧
    ((apiFetchSeq ep oh s w).requests.all
      (fun rq => rq.headers "ngrok-skip-browser-warning" == some "true")) = true := by
  refine ⟨buildHeaders_ngrok oh s.accessToken, ?_⟩
  rcases apiFetchSeq_requests_shape α ep oh s w with h | ⟨t, h⟩
  · rw [h]
    simp [List.all, buildHeaders_ngrok]
  · rw [h]
    simp [List.all, buildHeaders_ngrok,
      hset_other _ "Authorization" "ngrok-skip-browser-warning" _ (by decide)]

/-- Claim C7: logAction called with an identity submits the constructed
entry to the server unconditionally, while the local mirror is changed
only when it was already non-empty: an empty mirror (no successful read
yet) stays unchanged, a non-empty mirror gets the saved entry prepended
on a successful write, and a failed write changes nothing. -/
theorem logAction_write_read_asymmetry (u : User) (now actionType details : String)
    (targetId : Option String) (auditLog : List AuditLog) (post : CallOutcome AuditLog) :
    (logAction (some u) now actionType details targetId auditLog post).2 =
      some ⟨now, u.id, u.name, actionType, details, targetId⟩ ∧
    (auditLog = [] →
      (logAction (some u) now actionType details targetId auditLog post).1 = auditLog) ∧
    (∀ saved, auditLog ≠ [] → post = .ok saved →
      (logAction (some u) now actionType details targetId auditLog post).1 = saved :: auditLog) ∧
    (∀ m, post = .err m →
      (logAction (some u) now actionType details targetId auditLog post).1 = auditLog) := by
  refine ⟨?_, ?_, ?_, ?_⟩
  · cases post <;> simp [logAction]
  · intro hempty'
    cases post <;> simp [logAction, hempty']
  · intro saved hne hpost
    subst hpost
    simp [logAction, List.length_pos.mpr hne]
  · intro m hpost
    subst hpost
    simp [logAction]

/-- Witness for claim C7 at a concrete input: an identity writing while
the mirror is empty has its entry submitted and the mirror size kept. -/
theorem logAction_write_read_asymmetry_witness :
    (logAction (some ⟨"u1", "U", "role-op"⟩) "t0" "CREAR" "d" none []
      (.ok ⟨"id9", "t0", "u1", "U", "CREAR", "d", none⟩)).2 =
      some ⟨"t0", "u1", "U", "CREAR", "d", none⟩ ∧
    (logAction (some ⟨"u1", "U", "role-op"⟩) "t0" "CREAR" "d" none []
      (.ok ⟨"id9", "t0", "u1", "U", "CREAR", "d", none⟩)).1 = [] := by
  have h := logAction_write_read_asymmetry ⟨"u1", "U", "role-op"⟩ "t0" "CREAR" "d" none []
    (.ok ⟨"id9", "t0", "u1", "U", "CREAR", "d", none⟩)
  exact ⟨h.1, h.2.1 rfl⟩

/-- Claim C4: permission resolution is a total deterministic three-tier
fallback (a total function in this embedding, hence it never throws): a
role record found in the fetched collection wins for every content of the
hardcoded default table, else the default table entry for the role id is
adopted, else the empty deny-all set together with the diagnostic. -/
theorem permission_three_tier (defaults : List (String × Permissions)) (u : User)
    (roles : List Role) :
    (∀ fetchedRole, roles.find? (fun r => r.id == u.roleId) = some fetchedRole →
      resolvePermissions defaults (some u) roles = (fetchedRole.permissions, false)) ∧
    (roles.find? (fun r => r.id == u.roleId) = none →
      ∀ defaultPerms,
        (defaults.find? (fun p => p.1 == u.roleId)).map (fun p => p.2) = some defaultPerms →
        resolvePermissions defaults (some u) roles = (defaultPerms, false)) ∧
    (roles.find? (fun r => r.id == u.roleId) = none →
      (defaults.find? (fun p => p.1 == u.roleId)).map (fun p => p.2) = none →
      resolvePermissions defaults (some u) roles = ([], true)) := by
  refine ⟨?_, ?_, ?_⟩
  · intro fetchedRole hfind
    simp [resolvePermissions, hfind]
  · intro hfind defaultPerms hdef
    simp [resolvePermissions, hfind, hdef]
  · intro hfind hdef
    simp [resolvePermissions, hfind, hdef]

/-- Witness for claim C4 at a concrete input: the fetched role record is
preferred even though the default table disagrees on the same role id. -/
theorem permission_three_tier_witness :
    resolvePermissions [("role-x", [("ventas", false)])]
      (some ⟨"u1", "U", "role-x"⟩) [⟨"role-x", [("ventas", true)]⟩] =
      ([("ventas", true)], false) := by
  have h := permission_three_tier [("role-x", [("ventas", false)])]
    ⟨"u1", "U", "role-x"⟩ [⟨"role-x", [("ventas", true)]⟩]
  exact h.1 ⟨"role-x", [("ventas", true)]⟩ rfl

lemma gated_disjoint : ∀ e ∈ gatedEndpoints, e ∉ ungatedEndpoints := by decide

/-- Claim C5: the bootstrap chart-of-accounts outcome is a three-way case
split: an elevated identity whose chart fetch succeeds non-empty adopts
that sequence; an elevated identity whose fetch comes back empty or fails
(a 403 included) adopts the built-in default chart, not an empty
sequence; a non-elevated identity never has the fetch attempted and ends
with an empty chart, with no default substitution. -/
theorem chart_of_accounts_three_way (planInicial : List CuentaContable) (u : User)
    (w : ConfigWorld) :
    (∀ g, group1Result w = .ok g → hasFullAccessFor u = true →
      ∀ L, w.cuentas = .ok L → L ≠ [] →
        (fetchConfigData planInicial u w).1.cuentasContables = L) ∧
    (∀ g, group1Result w = .ok g → hasFullAccessFor u = true →
      (w.cuentas = .ok [] ∨ (∃ m, w.cuentas = .err m)) →
      (fetchConfigData planInicial u w).1.cuentasContables = planInicial) ∧
    (hasFullAccessFor u = false →
      (fetchConfigData planInicial u w).1.cuentasContables = [] ∧
      "/cuentas-contables" ∉ (fetchConfigData planInicial u w).2) := by
  refine ⟨?_, ?_, ?_⟩
  · rintro ⟨cs, os, sts, pms⟩ hg hfa L hL hne
    simp [fetchConfigData, hg, hfa, fetchSafe, hL, List.length_pos.mpr hne]
  · rintro ⟨cs, os, sts, pms⟩ hg hfa hfail
    rcases hfail with hL | ⟨m, hm⟩
    · simp [fetchConfigData, hg, hfa, fetchSafe, hL]
    · simp [fetchConfigData, hg, hfa, fetchSafe, hm]
  · intro hfa
    cases hg : group1Result w with
    | error m =>
      constructor
      · simp [fetchConfigData, hg, initialConfigState]
      · simp [fetchConfigData, hg]
        decide
    | ok g =>
      rcases g with ⟨cs, os, sts, pms⟩
      constructor
      · simp [fetchConfigData, hg, hfa]
      · simp [fetchConfigData, hg, hfa]
        decide

/-- Witness for claim C5 at a concrete input: an elevated identity whose
chart-of-accounts fetch fails with a 403 adopts the built-in default. -/
theorem chart_of_accounts_three_way_witness :
    (fetchConfigData [⟨"1.01"⟩] ⟨"u1", "U", "role-admin"⟩
      ⟨.ok [], .ok [], .ok [], .ok [], .ok [], .ok [], .ok [],
       .err "HTTP error! status: 403"⟩).1.cuentasContables = [⟨"1.01"⟩] := by
  have h := chart_of_accounts_three_way [⟨"1.01"⟩] ⟨"u1", "U", "role-admin"⟩
    ⟨.ok [], .ok [], .ok [], .ok [], .ok [], .ok [], .ok [],
     .err "HTTP error! status: 403"⟩
  exact h.2.1 ([], [], [], []) rfl (by decide) (Or.inr ⟨"HTTP error! status: 403", rfl⟩)

/-- Counterexample for claim C6 as frozen: an elevated identity whose
ungated group fails never reaches the gated group, so full access does
not imply the gated endpoints are requested and the biconditional of the
claim is false at this input. -/
theorem gated_iff_counterexample :
    hasFullAccessFor ⟨"u1", "U", "role-admin"⟩ = true ∧
    "/users" ∉ (fetchConfigData [] ⟨"u1", "U", "role-admin"⟩
      ⟨.err "boom", .ok [], .ok [], .ok [], .ok [], .ok [], .ok [], .ok []⟩).2 ∧
    ¬ ("/users" ∈ (fetchConfigData [] ⟨"u1", "U", "role-admin"⟩
        ⟨.err "boom", .ok [], .ok [], .ok [], .ok [], .ok [], .ok [], .ok []⟩).2 ↔
       hasFullAccessFor ⟨"u1", "U", "role-admin"⟩ = true) := by
  refine ⟨by decide, by decide, ?_⟩
  intro hiff
  exact absurd (hiff.mpr (by decide)) (by decide)

/-- Claim C6 amended: a bootstrap run for a non-elevated identity never
issues a request to any of the four gated endpoints, unconditionally; and
whenever the ungated group succeeds, each gated endpoint is requested
exactly when the identity has full access. -/
theorem gated_fetch_guard (planInicial : List CuentaContable) (u : User) (w : ConfigWorld) :
    (hasFullAccessFor u = false →
      ∀ e ∈ gatedEndpoints, e ∉ (fetchConfigData planInicial u w).2) ∧
    (∀ g, group1Result w = .ok g →
      ∀ e ∈ gatedEndpoints,
        (e ∈ (fetchConfigData planInicial u w).2 ↔ hasFullAccessFor u = true)) := by
  constructor
  · intro hfa e he
    cases hg : group1Result w with
    | error m =>
      simp only [fetchConfigData, hg]
      exact gated_disjoint e he
    | ok g =>
      rcases g with ⟨cs, os, sts, pms⟩
      simp only [fetchConfigData, hg, hfa, Bool.false_eq_true, if_false]
      exact gated_disjoint e he
  · rintro ⟨cs, os, sts, pms⟩ hg e he
    cases hfa : hasFullAccessFor u with
    | true =>
      simp only [fetchConfigData, hg, hfa, if_true]
      exact ⟨fun _ => trivial, fun _ => List.mem_append.mpr (Or.inr he)⟩
    | false =>
      simp only [fetchConfigData, hg, hfa, Bool.false_eq_true, if_false]
      constructor
      · intro hmem; exact absurd hmem (gated_disjoint e he)
      · intro hc; exact absurd hc (by simp)

/-- Witness for claim C6 amended at a concrete input: an operator run
with a fully successful world requests no gated endpoint, while an admin
run requests them all. -/
theorem gated_fetch_guard_witness :
    "/users" ∉ (fetchConfigData [] ⟨"u2", "O", "role-operator"⟩
      ⟨.ok [], .ok [], .ok [], .ok [], .ok [], .ok [], .ok [], .ok []⟩).2 ∧
    "/users" ∈ (fetchConfigData [] ⟨"u1", "U", "role-admin"⟩
      ⟨.ok [], .ok [], .ok [], .ok [], .ok [], .ok [], .ok [], .ok []⟩).2 := by
  constructor
  · exact (gated_fetch_guard [] ⟨"u2", "O", "role-operator"⟩
      ⟨.ok [], .ok [], .ok [], .ok [], .ok [], .ok [], .ok [], .ok []⟩).1
      (by decide) "/users" (by decide)
  · exact ((gated_fetch_guard [] ⟨"u1", "U", "role-admin"⟩
      ⟨.ok [], .ok [], .ok [], .ok [], .ok [], .ok [], .ok [], .ok []⟩).2
      ([], [], [], []) rfl "/users" (by decide)).mpr (by decide)

/-- Counterexample for claim C8 as frozen: a 500 response whose body
parses to the JSON string oops produces that string as the error message,
not the raw status line the claim requires for every non-object body. -/
theorem error_message_string_body_counterexample :
    (apiFetchSeq "/x" hempty ⟨none, none⟩
      (⟨.resp ⟨500, .jsonStr "oops", true, ()⟩, .httpError,
        .resp ⟨200, .jsonOther, true, ()⟩⟩ : ApiWorld Unit)).result =
      .error "oops" ∧
    "oops" ≠ "HTTP error! status: 500" := by
  exact ⟨rfl, by decide⟩

/-- Claim C8 amended: a gateway call with a non-2xx, non-401 status is
never replayed, and the message of the error it throws is selected as:
the truthy message field when the JSON body is an object carrying one,
the body itself when it parses to a JSON string, and the raw status line
whenever parsing fails or the body is any other JSON value; the thrown
message then passes through the catch-all transport normalization. -/
theorem error_message_selection (α : Type) (ep : String) (oh : Headers) (s : Store)
    (w : ApiWorld α) (r : HttpResp α) (hf : w.first = .resp r)
    (hok : respOk r.status = false) (h4 : r.status ≠ 401) :
    (apiFetchSeq ep oh s w).result =
      .error (netNormalize (errorMessageFor r.status r.errorBody)) ∧
    (apiFetchSeq ep oh s w).requests.length = 1 ∧
    (∀ m, r.errorBody = .jsonObj (some m) → errorMessageFor r.status r.errorBody = m) ∧
    (∀ b, r.errorBody = .jsonStr b → errorMessageFor r.status r.errorBody = b) ∧
    ((r.errorBody = .jsonObj none ∨ r.errorBody = .jsonOther ∨ r.errorBody = .notJson) →
      errorMessageFor r.status r.errorBody = "HTTP error! status: " ++ toString r.status) := by
  have h4b : (r.status == 401) = false := by
    simp [h4]
  refine ⟨?_, ?_, ?_, ?_, ?_⟩
  · simp [apiFetchSeq, hf, h4b, finishResponse, handleResponse, hok, mapErr]
  · simp [apiFetchSeq, hf, h4b]
  · intro m hm; simp [errorMessageFor, hm]
  · intro b hb; simp [errorMessageFor, hb]
  · rintro (hb | hb | hb) <;> simp [errorMessageFor, hb]

/-- Witness for claim C8 amended at a concrete input: a 500 with a JSON
object body carrying a message yields that message and a single request. -/
theorem error_message_selection_witness :
    (apiFetchSeq "/x" hempty ⟨none, none⟩
      (⟨.resp ⟨500, .jsonObj (some "fallo interno"), true, ()⟩, .httpError,
        .resp ⟨200, .jsonOther, true, ()⟩⟩ : ApiWorld Unit)).result =
      .error (netNormalize (errorMessageFor 500 (.jsonObj (some "fallo interno")))) ∧
    (apiFetchSeq "/x" hempty ⟨none, none⟩
      (⟨.resp ⟨500, .jsonObj (some "fallo interno"), true, ()⟩, .httpError,
        .resp ⟨200, .jsonOther, true, ()⟩⟩ : ApiWorld Unit)).requests.length = 1 := by
  have h := error_message_selection Unit "/x" hempty ⟨none, none⟩
    ⟨.resp ⟨500, .jsonObj (some "fallo interno"), true, ()⟩, .httpError,
      .resp ⟨200, .jsonOther, true, ()⟩⟩
    ⟨500, .jsonObj (some "fallo interno"), true, ()⟩ rfl (by decide) (by decide)
  exact ⟨h.1, h.2.1⟩

/-- Claim C2: a gateway call that receives a 401 consults the refresh
exchange; when a fresh access credential is produced the original call is
replayed exactly once with the Authorization header overwritten by the
new bearer token and the replay result is returned to the caller; when
none is produced the call fails with the terminal session-expired error
and no replay is issued. -/
theorem gateway_401_policy (α : Type) (ep : String) (oh : Headers) (s : Store)
    (w : ApiWorld α) (r : HttpResp α) (hf : w.first = .resp r) (h4 : r.status = 401) :
    (∀ t, (refreshTokenFn s w.refresh).2 = some t →
      (apiFetchSeq ep oh s w).result = finishResponse w.retry ∧
      (apiFetchSeq ep oh s w).requests =
        [⟨ep, buildHeaders oh s.accessToken⟩,
         ⟨ep, hset (buildHeaders oh s.accessToken) "Authorization" ("Bearer " ++ t)⟩]) ∧
    ((refreshTokenFn s w.refresh).2 = none →
      (apiFetchSeq ep oh s w).result = .error "Session expired. Please log in again." ∧
      (apiFetchSeq ep oh s w).requests = [⟨ep, buildHeaders oh s.accessToken⟩]) := by
  have h4b : (r.status == 401) = true := by simp [h4]
  constructor
  · intro t ht
    constructor
    · simp [apiFetchSeq, hf, h4b, ht]
    · simp [apiFetchSeq, hf, h4b, ht]
  · intro ht
    constructor
    · have hnorm : netNormalize "Session expired. Please log in again." =
          "Session expired. Please log in again." := by decide
      simp [apiFetchSeq, hf, h4b, ht, hnorm]
    · simp [apiFetchSeq, hf, h4b, ht]

/-- Witness for claim C2 at a concrete input: a 401 followed by a
successful exchange replays once with the fresh bearer token and returns
the replay payload; from a store with no refresh credential the same 401
ends in the terminal session-expired error. -/
theorem gateway_401_policy_witness :
    (apiFetchSeq "/x" hempty ⟨some "A1", some "R1"⟩
      (⟨.resp ⟨401, .jsonObj (some "expired"), true, ()⟩, .ok "A2" none,
        .resp ⟨200, .jsonOther, true, ()⟩⟩ : ApiWorld Unit)).result =
      finishResponse (.resp ⟨200, .jsonOther, true, ()⟩) ∧
    (apiFetchSeq "/y" hempty ⟨none, none⟩
      (⟨.resp ⟨401, .jsonObj (some "expired"), true, ()⟩, .httpError,
        .resp ⟨200, .jsonOther, true, ()⟩⟩ : ApiWorld Unit)).result =
      .error "Session expired. Please log in again." := by
  constructor
  · exact ((gateway_401_policy Unit "/x" hempty ⟨some "A1", some "R1"⟩
      ⟨.resp ⟨401, .jsonObj (some "expired"), true, ()⟩, .ok "A2" none,
        .resp ⟨200, .jsonOther, true, ()⟩⟩
      ⟨401, .jsonObj (some "expired"), true, ()⟩ rfl rfl).1 "A2" rfl).1
  · exact ((gateway_401_policy Unit "/y" hempty ⟨none, none⟩
      ⟨.resp ⟨401, .jsonObj (some "expired"), true, ()⟩, .httpError,
        .resp ⟨200, .jsonOther, true, ()⟩⟩
      ⟨401, .jsonObj (some "expired"), true, ()⟩ rfl rfl).2 rfl).1

/-- Claim C3: whenever the refresh exchange fails from a store the client
itself can reach, both stored credentials are absent afterwards, and any
subsequent gateway call whose caller headers carry no Authorization entry
issues only requests without an Authorization header. -/
theorem refresh_failure_clears_session (s : Store) (resp : RefreshResponse)
    (hreach : Reachable s) (hfail : refreshFailure s resp) :
    (refreshTokenFn s resp).1.accessToken = none ∧
    (refreshTokenFn s resp).1.refreshToken = none ∧
    (∀ (α : Type) (ep : String) (oh : Headers) (w : ApiWorld α),
      oh "Authorization" = none →
      ∀ rq ∈ (apiFetchSeq ep oh (refreshTokenFn s resp).1 w).requests,
        rq.headers "Authorization" = none) := by
  have hcleared : (refreshTokenFn s resp).1.accessToken = none ∧
      (refreshTokenFn s resp).1.refreshToken = none := by
    cases hrt : s.refreshToken with
    | none =>
      have hacc := reachable_half_pair hreach hrt
      simp [refreshTokenFn, hrt, hacc]
    | some rt =>
      rcases hfail with hfr | hfr | hfr
      · exact absurd hrt (by simp [hfr])
      · simp [refreshTokenFn, hrt, hfr]
      · simp [refreshTokenFn, hrt, hfr]
  refine ⟨hcleared.1, hcleared.2, ?_⟩
  intro α ep oh w hoh rq hrq
  rw [apiFetchSeq_requests_no_retry α ep oh _ hcleared.2 w] at hrq
  rcases List.mem_singleton.mp hrq with rfl
  show buildHeaders oh (refreshTokenFn s resp).1.accessToken "Authorization" = none
  rw [hcleared.1]
  exact buildHeaders_auth_none oh hoh

/-- Witness for claim C3 at a concrete input: a rejected exchange from
the store holding both credentials leaves both slots empty and a
subsequent call issues its single request without an Authorization
header. -/
theorem refresh_failure_clears_session_witness :
    (refreshTokenFn ⟨some "A1", some "R1"⟩ .httpError).1.accessToken = none ∧
    (refreshTokenFn ⟨some "A1", some "R1"⟩ .httpError).1.refreshToken = none ∧
    (Request.mk "/x" (buildHeaders hempty
        (refreshTokenFn ⟨some "A1", some "R1"⟩ .httpError).1.accessToken)).headers
      "Authorization" = none := by
  have h := refresh_failure_clears_session ⟨some "A1", some "R1"⟩ .httpError
    (Reachable.login ⟨none, none⟩ "A1" "R1" Reachable.init) (Or.inr (Or.inl rfl))
  refine ⟨h.1, h.2.1, ?_⟩
  have hmem : (Request.mk "/x" (buildHeaders hempty
      (refreshTokenFn ⟨some "A1", some "R1"⟩ .httpError).1.accessToken)) ∈
      (apiFetchSeq "/x" hempty (refreshTokenFn ⟨some "A1", some "R1"⟩ .httpError).1
        (⟨.resp ⟨200, .jsonOther, true, ()⟩, .httpError,
          .resp ⟨200, .jsonOther, true, ()⟩⟩ : ApiWorld Unit)).requests := by
    rw [apiFetchSeq_requests_no_retry Unit "/x" hempty _ h.2.1]
    exact List.mem_singleton.mpr rfl
  exact h.2.2 Unit "/x" hempty
    ⟨.resp ⟨200, .jsonOther, true, ()⟩, .httpError, .resp ⟨200, .jsonOther, true, ()⟩⟩
    rfl _ hmem

/-- Claim C1: single-flight refresh. Starting from the idle coordinator,
if every one of the n concurrent gateway calls observes its 401 before
the shared refresh promise settles (the observations arriving in any
order l), then exactly one refresh-exchange request is issued and the
settlement delivers one and the same outcome r to every call: by
resumeOutcome, all replay with the same new bearer credential when r is a
token, and all fail with the identical terminal error when r is null. -/
theorem single_flight_refresh (n : Nat) (hn : 0 < n) (l : List (Fin n))
    (hall : ∀ i : Fin n, i ∈ l) (r : Option String) :
    (runEvents (initSys n) (l.map .observe ++ [.settle r])).exchanges = 1 ∧
    (∀ i, (runEvents (initSys n) (l.map .observe ++ [.settle r])).tasks i = .done r) := by
  cases l with
  | nil => exact absurd (hall ⟨0, hn⟩) (List.not_mem_nil _)
  | cons a t =>
    have hs1 : step (initSys n) (.observe a) =
        ⟨Function.update (fun _ => Phase.pending) a Phase.waiting, true, 1⟩ := by
      simp [step, initSys]
    have hw1 : ∀ i, (step (initSys n) (.observe a)).tasks i = Phase.pending ∨
        (step (initSys n) (.observe a)).tasks i = Phase.waiting := by
      intro i
      rw [hs1]
      by_cases hi : i = a
      · subst hi; simp [Function.update]
      · simp [Function.update, hi]
    have hmain := runObs_inv t (step (initSys n) (.observe a))
      (by rw [hs1]) (by rw [hs1]) hw1
    have ha_wait : (step (initSys n) (.observe a)).tasks a = Phase.waiting := by
      rw [hs1]; simp [Function.update]
    have hallwait : ∀ i, (runEvents (step (initSys n) (.observe a))
        (t.map .observe)).tasks i = Phase.waiting := by
      intro i
      rcases List.mem_cons.mp (hall i) with hia | hit
      · subst hia; exact hmain.2.2.2.1 i ha_wait
      · exact hmain.2.2.2.2 i hit
    have hrun : runEvents (initSys n) ((a :: t).map .observe ++ [.settle r]) =
        step (runEvents (step (initSys n) (.observe a)) (t.map .observe)) (.settle r) := by
      simp [runEvents, List.foldl_append, List.foldl_cons]
    rw [hrun]
    have hsettle : ∀ s2 : Sys n, s2.refreshing = true →
        step s2 (.settle r) =
        ⟨fun i => match s2.tasks i with
            | Phase.waiting => Phase.done r
            | p => p,
         false, s2.exchanges⟩ := by
      intro s2 h2
      simp [step, h2]
    rw [hsettle _ hmain.1]
    refine ⟨hmain.2.1, ?_⟩
    intro i
    show (match (runEvents (step (initSys n) (.observe a))
        (t.map .observe)).tasks i with
      | Phase.waiting => Phase.done r
      | p => p) = Phase.done r
    rw [hallwait i]

/-- Witness for claim C1 at a concrete input: two concurrent calls both
observing a 401, with the exchange settling on a fresh token A2, yield a
single exchange request and both calls resumed with that same token. -/
theorem single_flight_refresh_witness :
    (runEvents (initSys 2)
      ([(0 : Fin 2), (1 : Fin 2)].map Ev.observe ++ [Ev.settle (some "A2")])).exchanges = 1 ∧
    (runEvents (initSys 2)
      ([(0 : Fin 2), (1 : Fin 2)].map Ev.observe ++ [Ev.settle (some "A2")])).tasks 0 =
      Phase.done (some "A2") ∧
    (runEvents (initSys 2)
      ([(0 : Fin 2), (1 : Fin 2)].map Ev.observe ++ [Ev.settle (some "A2")])).tasks 1 =
      Phase.done (some "A2") := by
  have h := single_flight_refresh 2 (by decide) [(0 : Fin 2), (1 : Fin 2)]
    (by decide) (some "A2")
  exact ⟨h.1, h.2 0, h.2 1⟩

end SistemaAlianzas
